import Mathlib

/-!
Shallow embedding of the mudkip NES emulator core (src/cpu/mod.rs,
src/cpu/instructions.rs, src/nes/rom.rs) together with theorems that
settle the specification claims about it.

Machine integers (u8, u16, usize) are modelled as `Nat`, with an explicit
`% 2 ^ w` exactly where the Rust code performs wrapping arithmetic.
Fallible operations return `Option`; a Rust panic is modelled by an
explicit result constructor.
-/

namespace Mudkip

/-- Mnemonics for all 6502 CPU instructions (src/cpu/instructions.rs,
`enum Mnemonic`). -/
inductive Mnemonic where
  | LDA | LDX | LDY | STA | STX | STY | TAX | TAY | TSX | TXA | TXS | TYA
  | ADC | DEC | DEX | DEY | INC | INX | INY | SBC
  | AND | ASL | BIT | EOR | LSR | ORA | ROL | ROR
  | BCC | BCS | BEQ | BMI | BNE | BPL | BVC | BVS
  | JMP | JSR | RTI | RTS
  | CLC | CLD | CLI | CLV | CMP | CPX | CPY | SEC | SED | SEI
  | PHA | PHP | PLA | PLP
  | BRK | NOP
  | UNKNOWN
  deriving DecidableEq, Repr

/-- All addressing modes of the emulator (src/cpu/mod.rs,
`enum AddressingMode`). -/
inductive AddressingMode where
  | ZPG   -- ZeroPage
  | ZPX   -- Indexed ZeroPage X
  | ZPY   -- Indexed ZeroPage Y
  | ABS   -- Absolute
  | ABX   -- Indexed Absolute X
  | ABY   -- Indexed Absolute Y
  | IND   -- Indirect
  | IMP   -- Implied
  | ACC   -- Accumulator
  | IMM   -- Immediate
  | REL   -- Relative
  | IDX   -- Indexed Indirect
  | IDY   -- Indirect Indexed
  | UNKNOWN
  deriving DecidableEq, Repr

/-- The decoded instruction record (src/cpu/instructions.rs,
`struct Instruction`).  `opcode`, `length` and `cycles` are `u8` in the
source; they are stored here as plain `Nat` values. -/
structure Instruction where
  opcode : Nat
  mnemonic : Mnemonic
  mode : AddressingMode
  length : Nat
  cycles : Nat
  deriving DecidableEq, Repr

/-- `Instruction::new` (src/cpu/instructions.rs). -/
def Instruction.new (opcode : Nat) (mnemonic : Mnemonic)
    (mode : AddressingMode) (length : Nat) (cycles : Nat) : Instruction :=
  { opcode := opcode, mnemonic := mnemonic, mode := mode,
    length := length, cycles := cycles }

/-- The opcode table of `decode` (src/cpu/instructions.rs lines 27-238):
one row per arm of the Rust `match opcode`, in source order, each row
pairing the opcode byte with the `(mnemonic, mode, length, cycles)` tuple
that arm yields.  The rows are kept in a flat list (rather than a 151-arm
Lean `match`, whose compiled matcher is intractable for the kernel) and
`decodeTable` performs the first-match lookup, which on this table of
pairwise-distinct opcode keys is exactly the Rust match semantics. -/
def opcodeRows : List (Nat × Mnemonic × AddressingMode × Nat × Nat) :=
  [
   -- LDA
   (0xa9, Mnemonic.LDA, AddressingMode.IMM, 2, 2),
   (0xa5, Mnemonic.LDA, AddressingMode.ZPG, 2, 3),
   (0xb5, Mnemonic.LDA, AddressingMode.ZPX, 2, 4),
   (0xad, Mnemonic.LDA, AddressingMode.ABS, 3, 4),
   (0xbd, Mnemonic.LDA, AddressingMode.ABX, 3, 4),
   (0xb9, Mnemonic.LDA, AddressingMode.ABY, 3, 4),
   (0xa1, Mnemonic.LDA, AddressingMode.IDX, 2, 6),
   (0xb1, Mnemonic.LDA, AddressingMode.IDY, 2, 5),
   -- LDX
   (0xa2, Mnemonic.LDX, AddressingMode.IMM, 2, 2),
   (0xa6, Mnemonic.LDX, AddressingMode.ZPG, 2, 3),
   (0xb6, Mnemonic.LDX, AddressingMode.ZPY, 2, 4),
   (0xae, Mnemonic.LDX, AddressingMode.ABS, 3, 4),
   (0xbe, Mnemonic.LDX, AddressingMode.ABY, 3, 4),
   -- LDY
   (0xa0, Mnemonic.LDY, AddressingMode.IMM, 2, 2),
   (0xa4, Mnemonic.LDY, AddressingMode.ZPG, 2, 3),
   (0xb4, Mnemonic.LDY, AddressingMode.ZPX, 2, 4),
   (0xac, Mnemonic.LDY, AddressingMode.ABS, 3, 4),
   (0xbc, Mnemonic.LDY, AddressingMode.ABX, 3, 4),
   -- STA
   (0x85, Mnemonic.STA, AddressingMode.ZPG, 2, 3),
   (0x95, Mnemonic.STA, AddressingMode.ZPX, 2, 4),
   (0x8d, Mnemonic.STA, AddressingMode.ABS, 3, 4),
   (0x9d, Mnemonic.STA, AddressingMode.ABX, 3, 5),
   (0x99, Mnemonic.STA, AddressingMode.ABY, 3, 5),
   (0x81, Mnemonic.STA, AddressingMode.IDX, 2, 6),
   (0x91, Mnemonic.STA, AddressingMode.IDY, 2, 6),
   -- STX
   (0x86, Mnemonic.STX, AddressingMode.ZPG, 2, 3),
   (0x96, Mnemonic.STX, AddressingMode.ZPY, 2, 4),
   (0x8e, Mnemonic.STX, AddressingMode.ABS, 3, 4),
   -- STY
   (0x84, Mnemonic.STY, AddressingMode.ZPG, 2, 3),
   (0x94, Mnemonic.STY, AddressingMode.ZPX, 2, 4),
   (0x8c, Mnemonic.STY, AddressingMode.ABS, 3, 4),
   -- TAX
   (0xaa, Mnemonic.TAX, AddressingMode.IMP, 1, 2),
   -- TAY
   (0xa8, Mnemonic.TAY, AddressingMode.IMP, 1, 2),
   -- TSX
   (0xba, Mnemonic.TSX, AddressingMode.IMP, 1, 2),
   -- TXA
   (0x8a, Mnemonic.TXA, AddressingMode.IMP, 1, 2),
   -- TXS
   (0x9a, Mnemonic.TXS, AddressingMode.IMP, 1, 2),
   -- TYA
   (0x98, Mnemonic.TYA, AddressingMode.IMP, 1, 2),
   -- ADC
   (0x69, Mnemonic.ADC, AddressingMode.IMM, 2, 2),
   (0x65, Mnemonic.ADC, AddressingMode.ZPG, 2, 3),
   (0x75, Mnemonic.ADC, AddressingMode.ZPX, 2, 4),
   (0x6d, Mnemonic.ADC, AddressingMode.ABS, 3, 4),
   (0x7d, Mnemonic.ADC, AddressingMode.ABX, 3, 4),
   (0x79, Mnemonic.ADC, AddressingMode.ABY, 3, 4),
   (0x61, Mnemonic.ADC, AddressingMode.IDX, 2, 6),
   (0x71, Mnemonic.ADC, AddressingMode.IDY, 2, 5),
   -- DEC
   (0xc6, Mnemonic.DEC, AddressingMode.ZPG, 2, 5),
   (0xd6, Mnemonic.DEC, AddressingMode.ZPX, 2, 6),
   (0xce, Mnemonic.DEC, AddressingMode.ABS, 3, 6),
   (0xde, Mnemonic.DEC, AddressingMode.ABX, 3, 7),
   -- DEX
   (0xca, Mnemonic.DEX, AddressingMode.IMP, 1, 2),
   -- DEY
   (0x88, Mnemonic.DEY, AddressingMode.IMP, 1, 2),
   -- INC
   (0xe6, Mnemonic.INC, AddressingMode.ZPG, 2, 5),
   (0xf6, Mnemonic.INC, AddressingMode.ZPX, 2, 6),
   (0xee, Mnemonic.INC, AddressingMode.ABS, 3, 6),
   (0xfe, Mnemonic.INC, AddressingMode.ABX, 3, 7),
   -- INX
   (0xe8, Mnemonic.INX, AddressingMode.IMP, 1, 2),
   -- INY
   (0xc8, Mnemonic.INY, AddressingMode.IMP, 1, 2),
   -- SBC
   (0xe9, Mnemonic.SBC, AddressingMode.IMM, 2, 2),
   (0xe5, Mnemonic.SBC, AddressingMode.ZPG, 2, 3),
   (0xf5, Mnemonic.SBC, AddressingMode.ZPX, 2, 4),
   (0xed, Mnemonic.SBC, AddressingMode.ABS, 3, 5),
   (0xfd, Mnemonic.SBC, AddressingMode.ABX, 3, 5),
   (0xf9, Mnemonic.SBC, AddressingMode.ABY, 3, 5),
   (0xe1, Mnemonic.SBC, AddressingMode.IDX, 2, 6),
   (0xf1, Mnemonic.SBC, AddressingMode.IDY, 2, 5),
   -- AND
   (0x29, Mnemonic.AND, AddressingMode.IMM, 2, 2),
   (0x25, Mnemonic.AND, AddressingMode.ZPG, 2, 3),
   (0x35, Mnemonic.AND, AddressingMode.ZPX, 2, 4),
   (0x2d, Mnemonic.AND, AddressingMode.ABS, 3, 4),
   (0x3d, Mnemonic.AND, AddressingMode.ABX, 3, 4),
   (0x39, Mnemonic.AND, AddressingMode.ABY, 3, 4),
   (0x21, Mnemonic.AND, AddressingMode.IDX, 2, 6),
   (0x31, Mnemonic.AND, AddressingMode.IDY, 2, 5),
   -- ASL
   (0x0a, Mnemonic.ASL, AddressingMode.ACC, 1, 2),
   (0x06, Mnemonic.ASL, AddressingMode.ZPG, 2, 5),
   (0x16, Mnemonic.ASL, AddressingMode.ZPX, 2, 6),
   (0x0e, Mnemonic.ASL, AddressingMode.ABS, 4, 6),
   (0x1e, Mnemonic.ASL, AddressingMode.ABX, 4, 7),
   -- BIT
   (0x24, Mnemonic.BIT, AddressingMode.ZPG, 2, 3),
   (0x2c, Mnemonic.BIT, AddressingMode.ABS, 3, 4),
   -- EOR
   (0x49, Mnemonic.EOR, AddressingMode.IMM, 2, 2),
   (0x45, Mnemonic.EOR, AddressingMode.ZPG, 2, 3),
   (0x55, Mnemonic.EOR, AddressingMode.ZPX, 2, 4),
   (0x4d, Mnemonic.EOR, AddressingMode.ABS, 3, 4),
   (0x5d, Mnemonic.EOR, AddressingMode.ABX, 3, 4),
   (0x59, Mnemonic.EOR, AddressingMode.ABY, 3, 4),
   (0x41, Mnemonic.EOR, AddressingMode.IDX, 2, 6),
   (0x51, Mnemonic.EOR, AddressingMode.IDY, 2, 5),
   -- LSR
   (0x4a, Mnemonic.LSR, AddressingMode.ACC, 1, 2),
   (0x46, Mnemonic.LSR, AddressingMode.ZPG, 2, 5),
   (0x56, Mnemonic.LSR, AddressingMode.ZPX, 2, 6),
   (0x4e, Mnemonic.LSR, AddressingMode.ABS, 3, 6),
   (0x5e, Mnemonic.LSR, AddressingMode.ABX, 3, 7),
   -- ORA
   (0x09, Mnemonic.ORA, AddressingMode.IMM, 2, 2),
   (0x05, Mnemonic.ORA, AddressingMode.ZPG, 2, 3),
   (0x15, Mnemonic.ORA, AddressingMode.ZPX, 2, 4),
   (0x0d, Mnemonic.ORA, AddressingMode.ABS, 3, 4),
   (0x1d, Mnemonic.ORA, AddressingMode.ABX, 3, 4),
   (0x19, Mnemonic.ORA, AddressingMode.ABY, 3, 4),
   (0x01, Mnemonic.ORA, AddressingMode.IDX, 2, 6),
   (0x11, Mnemonic.ORA, AddressingMode.IDY, 2, 5),
   -- ROL
   (0x2a, Mnemonic.ROL, AddressingMode.ACC, 1, 2),
   (0x26, Mnemonic.ROL, AddressingMode.ACC, 2, 5),
   (0x36, Mnemonic.ROL, AddressingMode.ACC, 2, 6),
   (0x2e, Mnemonic.ROL, AddressingMode.ACC, 3, 6),
   (0x3e, Mnemonic.ROL, AddressingMode.ACC, 3, 7),
   -- ROR
   (0x6a, Mnemonic.ROR, AddressingMode.ACC, 1, 2),
   (0x66, Mnemonic.ROR, AddressingMode.ACC, 2, 5),
   (0x76, Mnemonic.ROR, AddressingMode.ACC, 2, 6),
   (0x6e, Mnemonic.ROR, AddressingMode.ACC, 3, 6),
   (0x7e, Mnemonic.ROR, AddressingMode.ACC, 3, 7),
   -- BPL
   (0x10, Mnemonic.BPL, AddressingMode.REL, 2, 2),
   -- BMI
   (0x30, Mnemonic.BMI, AddressingMode.REL, 2, 2),
   -- BVC
   (0x50, Mnemonic.BVC, AddressingMode.REL, 2, 2),
   -- BVS
   (0x70, Mnemonic.BVS, AddressingMode.REL, 2, 2),
   -- BCC
   (0x90, Mnemonic.BCC, AddressingMode.REL, 2, 2),
   -- BCS
   (0xb0, Mnemonic.BCS, AddressingMode.REL, 2, 2),
   -- BNE
   (0xd0, Mnemonic.BNE, AddressingMode.REL, 2, 2),
   -- BEQ
   (0xf0, Mnemonic.BEQ, AddressingMode.REL, 2, 2),
   -- JMP
   (0x4c, Mnemonic.JMP, AddressingMode.ABS, 3, 3),
   (0x6c, Mnemonic.JMP, AddressingMode.IND, 3, 5),
   -- JSR
   (0x20, Mnemonic.JSR, AddressingMode.ABS, 3, 6),
   -- RTI
   (0x40, Mnemonic.RTI, AddressingMode.IMP, 1, 6),
   -- RTS
   (0x60, Mnemonic.RTS, AddressingMode.IMP, 1, 6),
   -- CLC
   (0x18, Mnemonic.CLC, AddressingMode.IMP, 1, 2),
   -- SEC
   (0x38, Mnemonic.SEC, AddressingMode.IMP, 1, 2),
   -- CLI
   (0x58, Mnemonic.CLI, AddressingMode.IMP, 1, 2),
   -- SEI
   (0x78, Mnemonic.SEI, AddressingMode.IMP, 1, 2),
   -- CLV
   (0xb8, Mnemonic.CLV, AddressingMode.IMP, 1, 2),
   -- CLD
   (0xd8, Mnemonic.CLD, AddressingMode.IMP, 1, 2),
   -- SED
   (0xf8, Mnemonic.SED, AddressingMode.IMP, 1, 2),
   -- CMP
   (0xc9, Mnemonic.CMP, AddressingMode.IMM, 2, 2),
   (0xc5, Mnemonic.CMP, AddressingMode.ZPG, 2, 3),
   (0xd5, Mnemonic.CMP, AddressingMode.ZPX, 2, 4),
   (0xcd, Mnemonic.CMP, AddressingMode.ABS, 3, 4),
   (0xdd, Mnemonic.CMP, AddressingMode.ABX, 3, 4),
   (0xd9, Mnemonic.CMP, AddressingMode.ABY, 3, 4),
   (0xc1, Mnemonic.CMP, AddressingMode.IDX, 2, 6),
   (0xd1, Mnemonic.CMP, AddressingMode.IDY, 2, 5),
   -- CPX
   (0xe0, Mnemonic.CPX, AddressingMode.IMM, 2, 2),
   (0xe4, Mnemonic.CPX, AddressingMode.ZPG, 2, 3),
   (0xec, Mnemonic.CPX, AddressingMode.ABS, 3, 4),
   -- CPY
   (0xc0, Mnemonic.CPY, AddressingMode.IMM, 2, 2),
   (0xc4, Mnemonic.CPY, AddressingMode.ZPG, 2, 3),
   (0xcc, Mnemonic.CPY, AddressingMode.ABS, 3, 4),
   -- PHA
   (0x48, Mnemonic.PHA, AddressingMode.IMP, 1, 3),
   -- PHP
   (0x08, Mnemonic.PHP, AddressingMode.IMP, 1, 3),
   -- PLA
   (0x68, Mnemonic.PLA, AddressingMode.IMP, 1, 4),
   -- PLP
   (0x28, Mnemonic.PLP, AddressingMode.IMP, 1, 4),
   -- BRK
   (0x00, Mnemonic.BRK, AddressingMode.IMP, 1, 7),
   -- NOP
   (0xea, Mnemonic.NOP, AddressingMode.IMP, 1, 2)
  ]

/-- The value of the `match opcode` expression inside `decode`: the first
row matching the opcode byte, or the wildcard arm's
UNKNOWN/UNKNOWN/1/1 tuple (src/cpu/instructions.rs line 237). -/
def decodeTable (opcode : Nat) : Mnemonic × AddressingMode × Nat × Nat :=
  match opcodeRows.find? (fun e => e.1 == opcode) with
  | some e => e.2
  | none => (Mnemonic.UNKNOWN, AddressingMode.UNKNOWN, 1, 1)

/-- `decode` (src/cpu/instructions.rs lines 26-241): destructures the
table tuple for the opcode and builds the `Instruction` from it. -/
def decode (opcode : Nat) : Instruction :=
  let (mnemonic, mode, length, cycles) := decodeTable opcode
  Instruction.new opcode mnemonic mode length cycles

/-- `decode` written with explicit tuple projections; used to reason about
the record fields without destructuring the table match. -/
lemma decode_def (op : Nat) :
    decode op = Instruction.new op (decodeTable op).1 (decodeTable op).2.1
      (decodeTable op).2.2.1 (decodeTable op).2.2.2 := by
  unfold decode
  rcases decodeTable op with ⟨m, mo, l, c⟩
  rfl

/-- The number of operand bytes each addressing mode consumes, as declared
by the mode descriptions in src/cpu/mod.rs (1-byte operands for immediate,
zero page, zero page indexed, relative and the two zero-page indirect
modes; 2-byte operands for absolute, absolute indexed and indirect; none
for implied, accumulator and the unknown mode). -/
def operandBytes : AddressingMode → Nat
  | AddressingMode.ZPG => 1
  | AddressingMode.ZPX => 1
  | AddressingMode.ZPY => 1
  | AddressingMode.IMM => 1
  | AddressingMode.REL => 1
  | AddressingMode.IDX => 1
  | AddressingMode.IDY => 1
  | AddressingMode.ABS => 2
  | AddressingMode.ABX => 2
  | AddressingMode.ABY => 2
  | AddressingMode.IND => 2
  | AddressingMode.IMP => 0
  | AddressingMode.ACC => 0
  | AddressingMode.UNKNOWN => 0

/-- The ten opcodes whose table entry breaks the
`length = 1 + operand bytes` invariant: the ASL absolute and
absolute-X entries carry length 4, and the eight ROL/ROR memory-form
entries are tagged with the Accumulator mode while carrying memory-form
lengths. -/
def lengthModeBugOpcodes : List Nat :=
  [0x0e, 0x1e, 0x26, 0x36, 0x2e, 0x3e, 0x66, 0x76, 0x6e, 0x7e]

/-- Single boolean sweep over the decoded instruction of one opcode,
recording: the length is at least 1; the length/mode invariant holds
except at the ten known bad entries; and a wildcard (UNKNOWN-mnemonic)
decode always carries mode UNKNOWN, length 1 and cycles 1. -/
def tableCheck (n : Nat) : Bool :=
  match decode n with
  | ⟨_, mnem, mode, len, cyc⟩ =>
    decide (1 ≤ len) &&
    (decide (len = 1 + operandBytes mode) || decide (n ∈ lengthModeBugOpcodes)) &&
    (decide (mnem ≠ Mnemonic.UNKNOWN) ||
      (decide (mode = AddressingMode.UNKNOWN) && decide (len = 1) && decide (cyc = 1)))

set_option maxRecDepth 100000 in
lemma tableCheck_all : ((List.range 256).all tableCheck) = true := by rfl

/-- Pointwise consequences of `tableCheck_all` for each byte value. -/
lemma table_facts (n : Nat) (hn : n < 256) :
    1 ≤ (decode n).length ∧
    ((decode n).length = 1 + operandBytes (decode n).mode ∨
      n ∈ lengthModeBugOpcodes) ∧
    ((decode n).mnemonic = Mnemonic.UNKNOWN →
      (decode n).mode = AddressingMode.UNKNOWN ∧
      (decode n).length = 1 ∧ (decode n).cycles = 1) := by
  have h := tableCheck_all
  rw [List.all_eq_true] at h
  have h2 := h n (List.mem_range.mpr hn)
  unfold tableCheck at h2
  rcases hd : decode n with ⟨o, m, mo, l, c⟩
  rw [hd] at h2
  simp only [Bool.and_eq_true, Bool.or_eq_true, decide_eq_true_eq, ne_eq] at h2
  refine ⟨h2.1.1, h2.1.2, ?_⟩
  intro hm
  rcases h2.2 with h3 | h3
  · exact absurd hm h3
  · exact ⟨h3.1.1, h3.1.2, h3.2⟩

/-- The register file (src/cpu/mod.rs, `struct CpuRegisters`): accumulator,
index registers, program counter (u16), stack pointer and status register
byte, all stored as `Nat`. -/
structure CpuRegisters where
  a : Nat
  x : Nat
  y : Nat
  pc : Nat
  s : Nat
  p : Nat
  deriving DecidableEq, Repr

/-- `CpuRegisters::new` (src/cpu/mod.rs lines 110-114): every register is
zeroed. -/
def CpuRegisters.new : CpuRegisters :=
  { a := 0x00, x := 0x00, y := 0x00, pc := 0x00, s := 0x00, p := 0x00 }

/-- The CPU state (src/cpu/mod.rs, `struct Cpu`): 2KiB working memory, the
register file, the separate `StatusRegister` bit set (a `u8` bit pattern,
stored here as its `Nat` value) and the program byte vector. -/
structure Cpu where
  memory : List Nat
  registers : CpuRegisters
  status : Nat
  program : List Nat
  deriving DecidableEq, Repr

/-- `Cpu::new` (src/cpu/mod.rs lines 117-120): zeroed memory, zeroed
registers, status bits 0, empty program. -/
def Cpu.new : Cpu :=
  { memory := List.replicate 2048 0, registers := CpuRegisters.new,
    status := 0, program := [] }

/-- `Cpu::power_on` (src/cpu/mod.rs lines 124-127): sets the status
register bit pattern to 0xfd and touches nothing else. -/
def Cpu.power_on (c : Cpu) : Cpu :=
  { c with status := 0xfd }

/-- `Cpu::reset` (src/cpu/mod.rs lines 131-133): the body is an empty TODO,
so the state is returned unchanged. -/
def Cpu.reset (c : Cpu) : Cpu :=
  c

/-- `Cpu::step` (src/cpu/mod.rs lines 136-162).  The function indexes
`self.program[pc]` without a bounds check, so an out-of-range program
counter panics in Rust; the panic is modelled by returning `none`.
Otherwise the opcode is decoded, the operand window
`program.iter().skip(pc).take(length)` is read (it only feeds a `println!`
and has no further effect), and the program counter is advanced by the
instruction length with u16 wrapping.  Nothing else is touched: the
execution machinery in the source is commented out. -/
def Cpu.step (c : Cpu) : Option Cpu :=
  let pc := c.registers.pc
  match c.program[pc]? with
  | none => none
  | some opcode =>
    let instruction := decode opcode
    let _operands := (c.program.drop pc).take instruction.length
    some { c with registers :=
      { c.registers with pc := (pc + instruction.length) % 65536 } }

/-- Shared helper: in-bounds `step` succeeds and changes exactly the
program counter. -/
lemma Cpu.step_of_lt (c : Cpu) (h : c.registers.pc < c.program.length) :
    c.step = some { c with registers := { c.registers with
      pc := (c.registers.pc +
        (decode (c.program.get ⟨c.registers.pc, h⟩)).length) % 65536 } } := by
  unfold Cpu.step
  simp only [List.getElem?_eq_getElem h]
  rfl

/-- Shared helper: out-of-bounds `step` hits the unchecked index. -/
lemma Cpu.step_of_ge (c : Cpu) (h : c.program.length ≤ c.registers.pc) :
    c.step = none := by
  unfold Cpu.step
  simp only [List.getElem?_eq_none h]

/-! ### ROM container loading (src/nes/rom.rs) -/

/-- Result of a fallible Rust computation whose failure is either a
returned `Err` or a process-terminating panic (`.expect`): `ok` models
`Ok`, `err` models `Err`, `aborted` models the panic with its message. -/
inductive PResult (α : Type) where
  | ok : α → PResult α
  | err : String → PResult α
  | aborted : String → PResult α
  deriving DecidableEq, Repr

/-- `TRAINER_LENGTH` (src/nes/rom.rs line 8). -/
def TRAINER_LENGTH : Nat := 512

/-- `PRG_ROM_PAGE_LENGTH` (src/nes/rom.rs line 9). -/
def PRG_ROM_PAGE_LENGTH : Nat := 16384

/-- `CHR_ROM_PAGE_LENGTH` (src/nes/rom.rs line 10). -/
def CHR_ROM_PAGE_LENGTH : Nat := 8192

/-- `enum ScreenMode` (src/nes/rom.rs). -/
inductive ScreenMode where
  | Horizontal
  | Vertical
  | FourScreen
  deriving DecidableEq, Repr

/-- `enum System` (src/nes/rom.rs). -/
inductive System where
  | NES
  | VsUnisystem
  | PlayChoice10
  deriving DecidableEq, Repr

/-- `enum Region` (src/nes/rom.rs). -/
inductive Region where
  | PAL
  | NTSC
  deriving DecidableEq, Repr

/-- `bitflags` `from_bits`: succeeds exactly when the byte has no bit set
outside the declared flag bits (`defined`); used for the `Flags6`,
`Flags7` and `Flags9` structures of src/nes/rom.rs.  `Flags6` declares all
eight bits (0xff), `Flags7` the low nibble (0x0f), `Flags9` bit 0 (0x01). -/
def fromBits (defined b : Nat) : Option Nat :=
  if b &&& (0xff ^^^ defined) = 0 then some b else none

/-- `Into<ScreenMode> for Flags6` (src/nes/rom.rs lines 63-73). -/
def screenModeOfFlags6 (f6 : Nat) : ScreenMode :=
  if f6 &&& 0x08 ≠ 0 then ScreenMode.FourScreen
  else if f6 &&& 0x01 ≠ 0 then ScreenMode.Vertical
  else ScreenMode.Horizontal

/-- `Into<System> for Flags7` (src/nes/rom.rs lines 75-85). -/
def systemOfFlags7 (f7 : Nat) : System :=
  if f7 &&& 0x01 ≠ 0 then System.VsUnisystem
  else if f7 &&& 0x02 ≠ 0 then System.PlayChoice10
  else System.NES

/-- `Into<Region> for Flags9` (src/nes/rom.rs lines 87-95). -/
def regionOfFlags9 (f9 : Nat) : Region :=
  if f9 &&& 0x01 ≠ 0 then Region.PAL else Region.NTSC

/-- `struct Header` (src/nes/rom.rs lines 112-121). -/
structure Header where
  prg_size : Nat
  chr_size : Nat
  trainer : Bool
  screen_mode : ScreenMode
  system : System
  region : Region
  mapper : Nat
  deriving DecidableEq, Repr

/-- `Header::new` (src/nes/rom.rs lines 137-153): parses the three flag
bytes with `from_bits(..).expect(..)` — a byte with an undefined bit set
panics (modelled as `aborted`) — and otherwise builds the header.  The
mapper field is `(flags7 << 4) | flags6` on `u8` values, hence the
`% 256` after the shift. -/
def Header.new (prg_size chr_size flags6 flags7 _prg_ram flags9 _flags10 : Nat) :
    PResult Header :=
  match fromBits 0xff flags6 with
  | none => PResult.aborted "Failed to parse bit-flags from ROM"
  | some flg6 =>
    match fromBits 0x0f flags7 with
    | none => PResult.aborted "Failed to parse bit-flags from ROM"
    | some flg7 =>
      match fromBits 0x01 flags9 with
      | none => PResult.aborted "Failed to parse bit-flags from ROM"
      | some flg9 =>
        PResult.ok
          { prg_size := prg_size
            chr_size := chr_size
            trainer := flg6 &&& 0x04 ≠ 0
            screen_mode := screenModeOfFlags6 flg6
            system := systemOfFlags7 flg7
            region := regionOfFlags9 flg9
            mapper := ((flags7 <<< 4) % 256) ||| flags6 }

/-- `struct ROM` (src/nes/rom.rs lines 100-104). -/
structure ROM where
  header : Header
  prg_rom : List Nat
  chr_rom : List Nat
  deriving DecidableEq, Repr

/-- `ROM::new` (src/nes/rom.rs lines 107-109). -/
def ROM.new (header : Header) (prg_rom chr_rom : List Nat) : ROM :=
  { header := header, prg_rom := prg_rom, chr_rom := chr_rom }

/-- nom's `take!(n)`: consumes exactly `n` bytes or signals `Incomplete`
(modelled as `none`). -/
def takeN (n : Nat) (buf : List Nat) : Option (List Nat × List Nat) :=
  if n ≤ buf.length then some (buf.take n, buf.drop n) else none

/-- `load` (src/nes/rom.rs lines 129-135) composed with the `parse_ines` /
`parse_header` nom parsers (lines 155-182).  The header parser first
matches the magic `"NES"` `0x1a` tag (a mismatch is a nom `Error`, a short
buffer a nom `Incomplete`; `load` maps both to
`Err("Failed to parse ROM file")`), then reads the seven header bytes,
skips the five padding bytes, and only then calls `Header::new` — which
can panic on undefined flag bits.  `parse_ines` then takes the optional
512-byte trainer, `prg_size * 16384` program bytes and
`chr_size * 8192` character bytes, any shortfall again becoming
`Incomplete` and hence the same `Err`; leftover trailing bytes are
ignored by `IResult::Done(_, val)`. -/
def load (buf : List Nat) : PResult ROM :=
  if buf.take 4 = [0x4e, 0x45, 0x53, 0x1a] then
    match buf.drop 4 with
    | prg_size :: chr_size :: flags6 :: flags7 :: prg_ram :: flags9 :: flags10 :: rest =>
      if 5 ≤ rest.length then
        match Header.new prg_size chr_size flags6 flags7 prg_ram flags9 flags10 with
        | PResult.aborted msg => PResult.aborted msg
        | PResult.err msg => PResult.err msg
        | PResult.ok header =>
          match (if header.trainer then takeN TRAINER_LENGTH (rest.drop 5)
                 else some ([], rest.drop 5)) with
          | none => PResult.err "Failed to parse ROM file"
          | some (_, rest1) =>
            match takeN (header.prg_size * PRG_ROM_PAGE_LENGTH) rest1 with
            | none => PResult.err "Failed to parse ROM file"
            | some (prg_rom, rest2) =>
              match takeN (header.chr_size * CHR_ROM_PAGE_LENGTH) rest2 with
              | none => PResult.err "Failed to parse ROM file"
              | some (chr_rom, _) => PResult.ok (ROM.new header prg_rom chr_rom)
      else PResult.err "Failed to parse ROM file"
    | _ => PResult.err "Failed to parse ROM file"
  else PResult.err "Failed to parse ROM file"


/-! ### Helper lemmas -/

/-- An instruction whose five fields are known is the corresponding
record literal. -/
lemma Instruction.eq_mk {i : Instruction} {o : Nat} {m : Mnemonic}
    {mo : AddressingMode} {l c : Nat} (h1 : i.opcode = o) (h2 : i.mnemonic = m)
    (h3 : i.mode = mo) (h4 : i.length = l) (h5 : i.cycles = c) :
    i = { opcode := o, mnemonic := m, mode := mo, length := l, cycles := c } := by
  cases i
  cases h1
  cases h2
  cases h3
  cases h4
  cases h5
  rfl

lemma takeN_some {n : Nat} {l p r : List Nat} (h : takeN n l = some (p, r)) :
    n ≤ l.length ∧ p = l.take n ∧ r = l.drop n := by
  unfold takeN at h
  split at h
  · injection h with h'
    cases h'
    exact ⟨by assumption, rfl, rfl⟩
  · cases h

/-- `Header::new` succeeds exactly when flags7 has a clear upper nibble
and flags9 has all of bits 1-7 clear (flags6 declares every bit, so its
`from_bits` cannot fail). -/
lemma Header.new_ok (prg chr f6 f7 pr f10 : Nat)
    (h7 : f7 &&& 0xf0 = 0) {f9 : Nat} (h9 : f9 &&& 0xfe = 0) :
    Header.new prg chr f6 f7 pr f9 f10 = PResult.ok
      { prg_size := prg, chr_size := chr, trainer := f6 &&& 0x04 ≠ 0,
        screen_mode := screenModeOfFlags6 f6, system := systemOfFlags7 f7,
        region := regionOfFlags9 f9, mapper := ((f7 <<< 4) % 256) ||| f6 } := by
  have hx2 : (0xff ^^^ (0x0f : Nat)) = 0xf0 := by decide
  have hx3 : (0xff ^^^ (0x01 : Nat)) = 0xfe := by decide
  unfold Header.new fromBits
  rw [hx2, hx3]
  rw [if_pos (show f6 &&& (0xff ^^^ 0xff) = 0 by simp), if_pos h7, if_pos h9]

/-! ### Claim theorems -/

/-- C3: `decode` is a total function on every opcode byte value: for all
256 byte values it yields exactly one well-formed `Instruction` (carrying
the opcode itself and a positive length), never failing — undefined bytes
fall through to the wildcard arm rather than erroring. -/
theorem decode_total (n : Nat) (hn : n < 256) :
    (decode n).opcode = n ∧ 1 ≤ (decode n).length := by
  refine ⟨?_, (table_facts n hn).1⟩
  rw [decode_def]
  rfl

theorem decode_total_witness :
    (decode 0xa9).opcode = 0xa9 ∧ 1 ≤ (decode 0xa9).length :=
  decode_total 0xa9 (by decide)

/-- C1 (code bug): the instruction table deviates from the published 6502
reference exactly where the claim points: the four ROL and four ROR
memory forms are tagged with the Accumulator mode instead of the
zero-page / zero-page-X / absolute / absolute-X modes, ASL absolute and
absolute-X carry length 4 instead of 3, and the three SBC absolute forms
carry 5 base cycles instead of 4. -/
theorem decode_table_deviations :
    ((decode 0x26).mode = AddressingMode.ACC ∧ (decode 0x26).mode ≠ AddressingMode.ZPG) ∧
    ((decode 0x36).mode = AddressingMode.ACC ∧ (decode 0x36).mode ≠ AddressingMode.ZPX) ∧
    ((decode 0x2e).mode = AddressingMode.ACC ∧ (decode 0x2e).mode ≠ AddressingMode.ABS) ∧
    ((decode 0x3e).mode = AddressingMode.ACC ∧ (decode 0x3e).mode ≠ AddressingMode.ABX) ∧
    ((decode 0x66).mode = AddressingMode.ACC ∧ (decode 0x66).mode ≠ AddressingMode.ZPG) ∧
    ((decode 0x76).mode = AddressingMode.ACC ∧ (decode 0x76).mode ≠ AddressingMode.ZPX) ∧
    ((decode 0x6e).mode = AddressingMode.ACC ∧ (decode 0x6e).mode ≠ AddressingMode.ABS) ∧
    ((decode 0x7e).mode = AddressingMode.ACC ∧ (decode 0x7e).mode ≠ AddressingMode.ABX) ∧
    ((decode 0x0e).length = 4 ∧ (decode 0x0e).length ≠ 3) ∧
    ((decode 0x1e).length = 4 ∧ (decode 0x1e).length ≠ 3) ∧
    ((decode 0xed).cycles = 5 ∧ (decode 0xed).cycles ≠ 4) ∧
    ((decode 0xfd).cycles = 5 ∧ (decode 0xfd).cycles ≠ 4) ∧
    ((decode 0xf9).cycles = 5 ∧ (decode 0xf9).cycles ≠ 4) := by
  decide

/-- C2 (code bug): the structural invariant `length = 1 + operand bytes of
the mode` fails on the code: ASL absolute (0x0e) is tagged ABS with
length 4 where 1 + 2 = 3, and ROL zero-page (0x26) is tagged ACC with
length 2 where 1 + 0 = 1.  On every opcode byte outside the ten bad
table entries the invariant does hold. -/
theorem decode_length_mode_invariant :
    (decode 0x0e).mode = AddressingMode.ABS ∧
    (decode 0x0e).length = 4 ∧
    (decode 0x0e).length ≠ 1 + operandBytes (decode 0x0e).mode ∧
    (decode 0x26).mode = AddressingMode.ACC ∧
    (decode 0x26).length = 2 ∧
    (decode 0x26).length ≠ 1 + operandBytes (decode 0x26).mode ∧
    (∀ n : Nat, n < 256 → n ∉ lengthModeBugOpcodes →
      (decode n).length = 1 + operandBytes (decode n).mode) := by
  refine ⟨by rfl, by rfl, by decide, by rfl, by rfl, by decide, ?_⟩
  intro n hn hmem
  rcases (table_facts n hn).2.1 with h | h
  · exact h
  · exact absurd h hmem

theorem decode_length_mode_invariant_witness :
    (decode 0xa9).length = 1 + operandBytes (decode 0xa9).mode :=
  decode_length_mode_invariant.2.2.2.2.2.2 0xa9 (by decide) (by decide)

/-- C4 counterexample: an undefined opcode byte (0x02) decodes to the
UNKNOWN/UNKNOWN/length-1 instruction, but with cycle count 1, not the
claimed conventional 2. -/
theorem decode_unknown_cycles_counterexample :
    (decode 0x02).mnemonic = Mnemonic.UNKNOWN ∧
    (decode 0x02).mode = AddressingMode.UNKNOWN ∧
    (decode 0x02).length = 1 ∧
    (decode 0x02).cycles = 1 ∧ (decode 0x02).cycles ≠ 2 := by
  decide

/-- C4 amended: every opcode byte with no documented table entry decodes
to mnemonic UNKNOWN, mode UNKNOWN, length 1 and cycle count 1 (not 2),
and a `step()` on such an opcode (with the program counter in bounds)
returns normally, advancing the program counter past exactly the opcode
byte. -/
theorem decode_unknown_nop_step (n : Nat) (hn : n < 256)
    (hu : (decode n).mnemonic = Mnemonic.UNKNOWN) :
    decode n =
      { opcode := n, mnemonic := Mnemonic.UNKNOWN,
        mode := AddressingMode.UNKNOWN, length := 1, cycles := 1 } ∧
    ∀ c : Cpu, ∀ h : c.registers.pc < c.program.length,
      c.program.get ⟨c.registers.pc, h⟩ = n →
      c.step = some { c with registers :=
        { c.registers with pc := (c.registers.pc + 1) % 65536 } } := by
  obtain ⟨hmo, hl, hc⟩ := (table_facts n hn).2.2 hu
  have ho : (decode n).opcode = n := by
    rw [decode_def]
    rfl
  refine ⟨Instruction.eq_mk ho hu hmo hl hc, ?_⟩
  intro c h hbyte
  have hstep := Cpu.step_of_lt c h
  rw [hbyte, hl] at hstep
  exact hstep

def unknownStepCpu : Cpu :=
  { memory := List.replicate 2048 0, registers := CpuRegisters.new,
    status := 0, program := [0x02] }

theorem decode_unknown_nop_step_witness :
    decode 0x02 =
      { opcode := 0x02, mnemonic := Mnemonic.UNKNOWN,
        mode := AddressingMode.UNKNOWN, length := 1, cycles := 1 } ∧
    unknownStepCpu.step = some { unknownStepCpu with registers :=
      { unknownStepCpu.registers with
          pc := (unknownStepCpu.registers.pc + 1) % 65536 } } := by
  have h := decode_unknown_nop_step 0x02 (by decide) (by decide)
  exact ⟨h.1, h.2 unknownStepCpu (by decide) (by decide)⟩

/-- The program bytes of the C5 end-to-end scenario: LDA #$05; ADC #$03;
BRK, loaded at program counter 0 in a freshly created CPU. -/
def scenarioCpu : Cpu :=
  { memory := List.replicate 2048 0, registers := CpuRegisters.new,
    status := 0, program := [0xa9, 0x05, 0x69, 0x03, 0x00] }

/-- C5 (code bug): after two `step()` calls on the scenario program the
CPU state has only its program counter changed (to 4): the accumulator is
still 0 — not the 8 an executing LDA/ADC pair would produce — the status
bits are unchanged, and no cycle accounting exists anywhere in `step`. -/
theorem scenario_two_steps_stub :
    (scenarioCpu.step.bind Cpu.step) =
      some { scenarioCpu with registers :=
        { scenarioCpu.registers with pc := 4 } } ∧
    (scenarioCpu.step.bind Cpu.step).map (fun c => c.registers.a) = some 0 ∧
    (scenarioCpu.step.bind Cpu.step).map (fun c => c.registers.a) ≠ some 8 ∧
    (scenarioCpu.step.bind Cpu.step).map (fun c => c.status) = some 0 := by
  refine ⟨rfl, rfl, by decide, rfl⟩

/-- C6 (code bug): `reset()` is an empty TODO stub, so it is the identity
on the whole CPU state: in particular the stack pointer is not
decremented by 3, the status register (hence the interrupt-disable bit)
is untouched, and the program counter is not loaded from any reset
vector. -/
theorem reset_is_identity (c : Cpu) :
    c.reset = c ∧ c.reset.registers.s = c.registers.s ∧
    c.reset.status = c.status ∧ c.reset.registers.pc = c.registers.pc :=
  ⟨rfl, rfl, rfl, rfl⟩

/-- Modelled from the spec: the hardware-defined 6502 power-up status
byte, P = 0x34, per the CPU power-up state reference that `Cpu::power_on`
itself cites; the constant does not appear in the source, which assigns
0xfd (the hardware power-up stack-pointer value) to the status register
instead. -/
def specPowerUpStatus : Nat := 0x34

/-- C7 (code bug): after `Cpu::new` + `power_on` the A, X, Y, S and PC
registers are all zero as claimed, but the status register is set to
0xfd, which is not the hardware-defined power-up status byte. -/
theorem power_on_state :
    (Cpu.new.power_on).registers.a = 0 ∧
    (Cpu.new.power_on).registers.x = 0 ∧
    (Cpu.new.power_on).registers.y = 0 ∧
    (Cpu.new.power_on).registers.s = 0 ∧
    (Cpu.new.power_on).registers.pc = 0 ∧
    (Cpu.new.power_on).status = 0xfd ∧
    (Cpu.new.power_on).status ≠ specPowerUpStatus := by
  refine ⟨rfl, rfl, rfl, rfl, rfl, rfl, by decide⟩

/-- C9: when the program counter is strictly inside the program vector,
`step()` returns normally and the new state differs from the old only in
the program counter, which advances by the decoded instruction's length
modulo 2^16; accumulator, X, Y, stack pointer, status, working memory and
program bytes are untouched (the structure-update form of the right-hand
side records exactly that). -/
theorem step_frame_effect (c : Cpu) (h : c.registers.pc < c.program.length) :
    c.step = some { c with registers := { c.registers with
      pc := (c.registers.pc +
        (decode (c.program.get ⟨c.registers.pc, h⟩)).length) % 65536 } } :=
  Cpu.step_of_lt c h

def frameCpu : Cpu :=
  { memory := List.replicate 2048 0, registers := CpuRegisters.new,
    status := 0, program := [0xea] }

theorem step_frame_effect_witness :
    frameCpu.step = some { frameCpu with registers := { frameCpu.registers with
      pc := (frameCpu.registers.pc +
        (decode (frameCpu.program.get
          ⟨frameCpu.registers.pc, by decide⟩)).length) % 65536 } } :=
  step_frame_effect frameCpu (by decide)

/-- C10: `step()` indexes the program vector at the program counter with
no bounds check, so whenever the program counter is at or past the end of
the program vector — including every call on an empty program — the
unchecked `self.program[pc]` index panics (modelled by `none`) instead of
returning. -/
theorem step_out_of_bounds (c : Cpu) (h : c.program.length ≤ c.registers.pc) :
    c.step = none :=
  Cpu.step_of_ge c h

theorem step_out_of_bounds_witness : Cpu.new.step = none :=
  step_out_of_bounds Cpu.new (by decide)

/-- A malformed (truncated) iNES buffer that nonetheless carries a full
16-byte header whose flags7 byte (0x10) has an undefined bit set: the
magic is valid, prg_size = 1 declares 16384 program bytes of which none
are present. -/
def undefinedFlagsBuf : List Nat :=
  [0x4e, 0x45, 0x53, 0x1a, 0x01, 0x00, 0x00, 0x10, 0x00, 0x00, 0x00,
   0x00, 0x00, 0x00, 0x00, 0x00]

/-- C8 counterexample: on this malformed (truncated) buffer `load` does
not return a failure at all: `Header::new`'s `expect` panics on the
undefined flags7 bit before the truncation is ever detected, so the call
aborts instead of returning `Err`, refuting the claim that every
malformed buffer yields a returned load failure. -/
theorem load_aborts_on_undefined_flag_bits :
    load undefinedFlagsBuf =
      PResult.aborted "Failed to parse bit-flags from ROM" ∧
    undefinedFlagsBuf.length < 16 + 1 * PRG_ROM_PAGE_LENGTH ∧
    (∀ r : ROM, load undefinedFlagsBuf ≠ PResult.ok r) ∧
    (∀ s : String, load undefinedFlagsBuf ≠ PResult.err s) := by
  have h1 : load undefinedFlagsBuf =
      PResult.aborted "Failed to parse bit-flags from ROM" := by rfl
  refine ⟨h1, by decide, fun r h => ?_, fun s h => ?_⟩
  · rw [h1] at h
    exact PResult.noConfusion h
  · rw [h1] at h
    exact PResult.noConfusion h

/-- C8 amended: for every malformed buffer that does not trip the
undefined-flag-bit panic, `load` returns the descriptive
`Err("Failed to parse ROM file")` and never a partially constructed ROM:
bad magic and short-header buffers always yield that `Err`; a buffer with
a complete, flag-valid header whose remaining data falls short of the
declared trainer + program + character sections yields that `Err`; and a
successful load always carries exactly the declared number of program and
character bytes. -/
theorem load_malformed :
    (∀ buf : List Nat, buf.take 4 ≠ [0x4e, 0x45, 0x53, 0x1a] →
      load buf = PResult.err "Failed to parse ROM file") ∧
    (∀ buf : List Nat, buf.length < 16 →
      load buf = PResult.err "Failed to parse ROM file") ∧
    (∀ prg chr f6 f7 pr f9 f10 b11 b12 b13 b14 b15 : Nat, ∀ data : List Nat,
      f7 &&& 0xf0 = 0 → f9 &&& 0xfe = 0 →
      data.length < (if f6 &&& 0x04 ≠ 0 then TRAINER_LENGTH else 0) +
        prg * PRG_ROM_PAGE_LENGTH + chr * CHR_ROM_PAGE_LENGTH →
      load (0x4e :: 0x45 :: 0x53 :: 0x1a :: prg :: chr :: f6 :: f7 :: pr ::
        f9 :: f10 :: b11 :: b12 :: b13 :: b14 :: b15 :: data) =
        PResult.err "Failed to parse ROM file") ∧
    (∀ buf : List Nat, ∀ rom : ROM, load buf = PResult.ok rom →
      rom.prg_rom.length = rom.header.prg_size * PRG_ROM_PAGE_LENGTH ∧
      rom.chr_rom.length = rom.header.chr_size * CHR_ROM_PAGE_LENGTH) := by
  refine ⟨?_, ?_, ?_, ?_⟩
  · intro buf h
    unfold load
    rw [if_neg h]
  · intro buf hlen
    unfold load
    split
    · split
      · next prg chr f6 f7 pr f9 f10 rest heq =>
        have hrest := congrArg List.length heq
        simp only [List.length_drop, List.length_cons] at hrest
        rw [if_neg (by omega)]
      · rfl
    · rfl
  · intro prg chr f6 f7 pr f9 f10 b11 b12 b13 b14 b15 data h7 h9 hlen
    unfold load
    split
    · split
      · next prg1 chr1 f61 f71 pr1 f91 f101 rest heq =>
        have hd : List.drop 4 (0x4e :: 0x45 :: 0x53 :: 0x1a :: prg :: chr ::
            f6 :: f7 :: pr :: f9 :: f10 :: b11 :: b12 :: b13 :: b14 :: b15 ::
            data) = prg :: chr :: f6 :: f7 :: pr :: f9 :: f10 :: b11 :: b12 ::
            b13 :: b14 :: b15 :: data := rfl
        rw [hd] at heq
        simp only [List.cons.injEq] at heq
        obtain ⟨rfl, rfl, rfl, rfl, rfl, rfl, rfl, hrest⟩ := heq
        subst hrest
        rw [if_pos (show (5 : Nat) ≤
          (b11 :: b12 :: b13 :: b14 :: b15 :: data).length by simp)]
        rw [Header.new_ok prg chr f6 f7 pr f10 h7 h9]
        rw [show List.drop 5 (b11 :: b12 :: b13 :: b14 :: b15 :: data) = data
          from rfl]
        simp only [TRAINER_LENGTH, PRG_ROM_PAGE_LENGTH, CHR_ROM_PAGE_LENGTH]
          at hlen ⊢
        simp only [decide_eq_true_eq]
        by_cases h6 : f6 &&& 0x04 ≠ 0
        · rw [if_pos h6]
          rw [if_pos h6] at hlen
          by_cases ht : 512 ≤ data.length
          · by_cases hp : prg * 16384 ≤ data.length - 512
            · have hc : ¬ chr * 8192 ≤ data.length - (512 + prg * 16384) := by
                omega
              simp [takeN, ht, hp, hc]
            · simp [takeN, ht, hp]
          · simp [takeN, ht]
        · rw [if_neg h6]
          rw [if_neg h6] at hlen
          by_cases hp : prg * 16384 ≤ data.length
          · have hc : ¬ chr * 8192 ≤ data.length - prg * 16384 := by omega
            simp [takeN, hp, hc]
          · simp [takeN, hp]
      · rfl
    · rfl
  · intro buf rom h
    unfold load at h
    split at h
    · split at h
      · split at h
        · split at h
          · exact PResult.noConfusion h
          · exact PResult.noConfusion h
          · split at h
            · exact PResult.noConfusion h
            · next fst rest1 htr =>
              split at h
              · exact PResult.noConfusion h
              · next prgrom rest2 hprg =>
                split at h
                · exact PResult.noConfusion h
                · next chrrom rest3 hchr =>
                  obtain ⟨hb1, hp1, -⟩ := takeN_some hprg
                  obtain ⟨hb2, hp2, -⟩ := takeN_some hchr
                  cases h
                  constructor
                  · rw [hp1]
                    simp only [ROM.new, List.length_take]
                    omega
                  · rw [hp2]
                    simp only [ROM.new, List.length_take]
                    omega
        · exact PResult.noConfusion h
      · exact PResult.noConfusion h
    · exact PResult.noConfusion h

/-- A minimal well-formed iNES buffer: valid magic, zero program and
character page counts, all flag bytes zero. -/
def emptyRomBuf : List Nat :=
  [0x4e, 0x45, 0x53, 0x1a, 0x00, 0x00, 0x00, 0x00, 0x00, 0x00, 0x00,
   0x00, 0x00, 0x00, 0x00, 0x00]

/-- The ROM value `load` produces for `emptyRomBuf`. -/
def emptyRom : ROM :=
  ROM.new
    { prg_size := 0, chr_size := 0, trainer := false,
      screen_mode := ScreenMode.Horizontal, system := System.NES,
      region := Region.NTSC, mapper := 0 } [] []

theorem load_malformed_witness :
    load [] = PResult.err "Failed to parse ROM file" ∧
    load [0x4e, 0x45, 0x53, 0x1a] = PResult.err "Failed to parse ROM file" ∧
    load (0x4e :: 0x45 :: 0x53 :: 0x1a :: 1 :: 0 :: 0 :: 0 :: 0 ::
      0 :: 0 :: 0 :: 0 :: 0 :: 0 :: 0 :: ([] : List Nat)) =
      PResult.err "Failed to parse ROM file" ∧
    (emptyRom.prg_rom.length = emptyRom.header.prg_size * PRG_ROM_PAGE_LENGTH ∧
      emptyRom.chr_rom.length = emptyRom.header.chr_size * CHR_ROM_PAGE_LENGTH) := by
  refine ⟨?_, ?_, ?_, ?_⟩
  · exact load_malformed.1 [] (by decide)
  · exact load_malformed.2.1 [0x4e, 0x45, 0x53, 0x1a] (by decide)
  · exact load_malformed.2.2.1 1 0 0 0 0 0 0 0 0 0 0 0 [] (by decide)
      (by decide) (by decide)
  · exact load_malformed.2.2.2 emptyRomBuf emptyRom (by rfl)

end Mudkip
